import Mathlib

/-!
Shallow embedding of `Deploy.py`, the release-packaging orchestrator of the
Furious repository.  Module-level constants that depend on the host platform
(`NUITKA_BUILD`, `ARTIFACT_NAME`, ...) become functions of an explicit
`Platform` tag and a `Config` record carrying the values that the script reads
from `Furious.Utility` (`APPLICATION_VERSION`, `PLATFORM_RELEASE`,
`PLATFORM_MACHINE`, `PYSIDE6_VERSION`, `ROOT_DIR`).  External effects (HTTP
GET, file-system removals, subprocess runs) are supplied by environment
records, and each Python function that can raise is embedded as a function
returning `Except`.  `pathlib`'s `/` operator is modelled as joining with a
literal "/" separator, and Python string methods (`endswith`, `lower`,
`split`) are modelled over the character list of the string so that every
definition evaluates inside the kernel.
-/

namespace Deploy

/-- Python's `str.endswith(suffix)`. -/
def pyEndsWith (s suffix : String) : Bool := suffix.data.isSuffixOf s.data

/-- Python's `str.lower()` (the strings involved are ASCII). -/
def pyLower (s : String) : String := ⟨s.data.map Char.toLower⟩

/-- The value of `PLATFORM` (`platform.system()`): the script branches on the
strings "Windows" and "Darwin", with everything else falling into the bare
`else` arms. -/
inductive Platform where
  | windows
  | darwin
  | other
  deriving DecidableEq, Repr

/-- The read-only values imported from `Furious.Utility` that `Deploy.py`
uses to derive names and commands. `APPLICATION_NAME` is the fixed string
"Furious" (the build commands hard-code it), so it is a constant below rather
than a field. -/
structure Config where
  appVersion : String
  platformRelease : String
  platformMachine : String
  pyside6Version : String
  rootDir : String
  deriving DecidableEq, Repr

def APPLICATION_NAME : String := "Furious"

/-- `DEPLOY_DIR_NAME = f'{APPLICATION_NAME}-Deploy'`. -/
def DEPLOY_DIR_NAME : String := APPLICATION_NAME ++ "-Deploy"

/-- `pathlib`'s `/`, modelled as string join with "/". -/
def pathJoin (a b : String) : String := a ++ "/" ++ b

/-- Splits a character list at the dots, Python's `"x.y.z".split('.')`. -/
def splitDots : List Char → List (List Char)
  | [] => [[]]
  | c :: cs =>
    if c = '.' then [] :: splitDots cs
    else
      match splitDots cs with
      | [] => [[c]]
      | g :: gs => (c :: g) :: gs

/-- Numeric value of one dot-separated version component (0 when the
component is not a plain decimal numeral). -/
def componentToNat (cs : List Char) : Nat :=
  if cs ≠ [] ∧ cs.all Char.isDigit then
    cs.foldl (fun a c => a * 10 + (c.toNat - 48)) 0
  else 0

/-- Modelled from the spec: `versionToValue` lives in `Furious.Utility`, which
is not among the sources here.  Per the spec, version comparison is "numeric
per dot-separated component, not lexicographic", so a version string is mapped
to its list of numeric components, compared by `valueLE`. -/
def versionToValue (s : String) : List Nat :=
  (splitDots s.data).map componentToNat

/-- Numeric per-component (lexicographic over numbers) order on version
values: the order in which `versionToValue` results are compared. -/
def valueLE : List Nat → List Nat → Bool
  | [], _ => true
  | _ :: _, [] => false
  | a :: as, b :: bs =>
    if a < b then true
    else if b < a then false
    else valueLE as bs

/-- The module-level `NUITKA_BUILD` constant: the full nuitka command line on
Windows and Darwin, and the empty string on every other platform. -/
def NUITKA_BUILD (p : Platform) (cfg : Config) : String :=
  match p with
  | .windows =>
      "python -m nuitka " ++
      "--standalone --plugin-enable=pyside6 " ++
      "--disable-console " ++
      "--assume-yes-for-downloads " ++
      "--include-package-data=Furious " ++
      "--windows-icon-from-ico=\"Icons/png/rocket-takeoff-window.png\" " ++
      "--force-stdout-spec=^%TEMP^%/_Furious_Enable_Stdout " ++
      "--force-stderr-spec=^%TEMP^%/_Furious_Enable_Stderr " ++
      "Furious " ++
      "--output-dir=\"" ++ pathJoin cfg.rootDir DEPLOY_DIR_NAME ++ "\""
  | .darwin =>
      "python -m nuitka " ++
      "--standalone --plugin-enable=pyside6 " ++
      "--disable-console " ++
      "--assume-yes-for-downloads " ++
      "--include-package-data=Furious " ++
      "--macos-create-app-bundle " ++
      "--macos-app-icon=\"Icons/png/rocket-takeoff-window.png\" " ++
      "--macos-app-name=\"Furious\" " ++
      "Furious-GUI.py " ++
      "--output-dir=\"" ++ pathJoin cfg.rootDir DEPLOY_DIR_NAME ++ "\""
  | .other => ""

/-- The module-level `ARTIFACT_NAME` constant.  On Windows a release string
ending in "Server" pins the release component to "10"; on Darwin the
minimum-OS tag is chosen by comparing `PYSIDE6_VERSION` against "6.4.3"; on
any other platform the name is the empty string.  `PLATFORM.lower()` is
"windows" on Windows, and the Darwin arms hard-code "macOS". -/
def ARTIFACT_NAME (p : Platform) (cfg : Config) : String :=
  match p with
  | .windows =>
      if pyEndsWith cfg.platformRelease "Server" then
        APPLICATION_NAME ++ "-" ++ cfg.appVersion ++ "-" ++
          "windows10-" ++ pyLower cfg.platformMachine
      else
        APPLICATION_NAME ++ "-" ++ cfg.appVersion ++ "-" ++
          "windows" ++ cfg.platformRelease ++ "-" ++ pyLower cfg.platformMachine
  | .darwin =>
      if valueLE (versionToValue cfg.pyside6Version) (versionToValue "6.4.3") then
        APPLICATION_NAME ++ "-" ++ cfg.appVersion ++ "-" ++
          "macOS-10.9-" ++ pyLower cfg.platformMachine
      else
        APPLICATION_NAME ++ "-" ++ cfg.appVersion ++ "-" ++
          "macOS-11.0-" ++ pyLower cfg.platformMachine
  | .other => ""

/-- What `requests.get(url)` does: either it raises before any response object
exists (connection error, DNS failure, timeout — a transport error), or it
yields a response carrying an HTTP status code. -/
inductive GetOutcome where
  | transportError
  | response (status : Nat)
  deriving DecidableEq, Repr

/-- The Python exceptions that can escape the embedded functions. -/
inductive PyExn where
  | moduleNotFoundError
  | nameError
  deriving DecidableEq, Repr

/-- The outside world as seen by `downloadXrayAssets`: whether `import
requests` succeeds, whether creating the asset directory raises, the outcome
of the GET per url, and whether writing a destination file raises. -/
structure FetchEnv where
  requestsAvailable : Bool
  mkdirFails : Bool
  get : String → GetOutcome
  writeFails : String → Bool

/-- `requests.Response.raise_for_status()` raises `HTTPError` exactly for
4xx/5xx status codes. -/
def raiseForStatusFails (status : Nat) : Bool := 400 ≤ status && status < 600

/-- `downloadXrayAssets(url, filename)`.  The body's `try` block is guarded by
`except Exception` whose handler logs `response.status_code` and returns
`False`; when the exception was raised before `response` was bound (a failing
`os.makedirs`, or `requests.get` itself raising a transport error), that log
line raises `NameError`, which escapes the function.  When `response` is
bound (non-success status from `raise_for_status`, or a failing file write),
the handler runs and the function returns `false`.  A missing `requests`
module raises `ModuleNotFoundError` up front. -/
def downloadXrayAssets (env : FetchEnv) (url filename : String) :
    Except PyExn Bool :=
  if env.requestsAvailable = false then .error .moduleNotFoundError
  else if env.mkdirFails then .error .nameError
  else
    match env.get url with
    | .transportError => .error .nameError
    | .response status =>
      if raiseForStatusFails status then .ok false
      else if env.writeFails filename then .ok false
      else .ok true

def url_geosite : String :=
  "https://github.com/Loyalsoldier/v2ray-rules-dat/releases/latest/download/geosite.dat"

def url_geoip : String :=
  "https://github.com/Loyalsoldier/v2ray-rules-dat/releases/latest/download/geoip.dat"

def filename_geosite : String := "geosite.dat"

def filename_geoip : String := "geoip.dat"

/-- `download()`: evaluates `all([downloadXrayAssets(url_geosite, ...),
downloadXrayAssets(url_geoip, ...)])`.  Python builds the whole list before
`all` runs, so the second fetch is attempted even when the first returned
`False`; an exception escaping a fetch aborts the list construction.  The
second component records the `(url, filename)` pairs actually attempted. -/
def download (env : FetchEnv) : Except PyExn Bool × List (String × String) :=
  match downloadXrayAssets env url_geosite filename_geosite with
  | .error e => (.error e, [(url_geosite, filename_geosite)])
  | .ok b₁ =>
    match downloadXrayAssets env url_geoip filename_geoip with
    | .error e =>
        (.error e,
         [(url_geosite, filename_geosite), (url_geoip, filename_geoip)])
    | .ok b₂ =>
        (.ok (b₁ && b₂),
         [(url_geosite, filename_geosite), (url_geoip, filename_geoip)])

/-- The directory name whose leftover copy `cleanup()` removes on Windows:
`f'{APPLICATION_NAME}-{APPLICATION_VERSION}-{PLATFORM.lower()}{PLATFORM_RELEASE}'`
— note: always the literal release string, with no server-edition special
case. -/
def windowsUnzippedDirName (cfg : Config) : String :=
  APPLICATION_NAME ++ "-" ++ cfg.appVersion ++ "-" ++
    "windows" ++ cfg.platformRelease

/-- `cleanup()`: each removal is its own `try/except Exception` block whose
handler only logs, so a failing removal never stops the later ones and
nothing escapes.  The environment says which removals raise; the result is
the log, one `(path, succeeded)` entry per attempted removal, in program
order. -/
def cleanup (p : Platform) (cfg : Config) (removeFails : String → Bool) :
    List (String × Bool) :=
  let deployEntry :=
    (pathJoin cfg.rootDir DEPLOY_DIR_NAME,
     !removeFails (pathJoin cfg.rootDir DEPLOY_DIR_NAME))
  match p with
  | .windows =>
      [deployEntry,
       (pathJoin cfg.rootDir (ARTIFACT_NAME .windows cfg ++ ".zip"),
        !removeFails (pathJoin cfg.rootDir (ARTIFACT_NAME .windows cfg ++ ".zip"))),
       (pathJoin cfg.rootDir (windowsUnzippedDirName cfg),
        !removeFails (pathJoin cfg.rootDir (windowsUnzippedDirName cfg)))]
  | .darwin =>
      [deployEntry,
       (pathJoin cfg.rootDir (ARTIFACT_NAME .darwin cfg ++ ".dmg"),
        !removeFails (pathJoin cfg.rootDir (ARTIFACT_NAME .darwin cfg ++ ".dmg"))),
       (pathJoin cfg.rootDir "dmg",
        !removeFails (pathJoin cfg.rootDir "dmg"))]
  | .other => [deployEntry]

/-- The renamed-build directory name computed in `main()`'s Windows branch:
server releases are pinned to `windows10`, otherwise the literal release
string is embedded. -/
def foldernameWindows (cfg : Config) : String :=
  if pyEndsWith cfg.platformRelease "Server" then
    APPLICATION_NAME ++ "-" ++ cfg.appVersion ++ "-" ++ "windows10"
  else
    APPLICATION_NAME ++ "-" ++ cfg.appVersion ++ "-" ++
      "windows" ++ cfg.platformRelease

/-- How the packaging steps can fail: `shutil.copytree` raising because its
source is missing (the exception propagates uncaught), or the external
disk-image tool exiting non-zero (`CalledProcessError`, caught and mapped to
`sys.exit(-1)`). -/
inductive PackErr where
  | missingSource
  | toolFailed
  deriving DecidableEq, Repr

/-- The file-system locations the Windows packaging branch touches, each an
abstract content token (`none` = absent): the raw build output
`<deploy>/Furious.dist`, the renamed copy `<deploy>/<foldername>`, and the
zip archive. -/
structure WinFS where
  dist : Option Nat
  folder : Option Nat
  zip : Option Nat
  deriving DecidableEq, Repr

/-- `main()`'s Windows packaging: `shutil.rmtree` of the renamed directory
tolerating `FileNotFoundError`, `shutil.copytree` of `Furious.dist` onto the
canonical name (raising if the source is missing), then
`shutil.make_archive`, which overwrites any existing archive; the archive's
content is determined by the copied directory's content. -/
def packageWindows (fs : WinFS) : Except PackErr WinFS :=
  let fs₁ : WinFS := { fs with folder := none }
  match fs₁.dist with
  | none => .error .missingSource
  | some d => .ok { fs₁ with folder := some d, zip := some d }

/-- The file-system locations the Darwin packaging branch touches: the built
bundle `<deploy>/Furious-GUI.app`, the staging directory `<root>/app` (absent,
or present with an optional copied bundle), and the dmg file. -/
structure MacFS where
  bundle : Option Nat
  appDir : Option (Option Nat)
  dmg : Option Nat
  deriving DecidableEq, Repr

/-- `main()`'s Darwin packaging: `shutil.rmtree` of the `app` staging
directory tolerating `FileNotFoundError`, `os.mkdir` of a fresh one,
`shutil.copytree` of the bundle into it (raising if the bundle is missing),
then the external `create-dmg` invocation, modelled as a function `dmgTool`
from the staged bundle content to the produced dmg content (`none` = the tool
exited non-zero). -/
def packageDarwin (dmgTool : Nat → Option Nat) (fs : MacFS) :
    Except PackErr MacFS :=
  let fs₂ : MacFS := { fs with appDir := some none }
  match fs₂.bundle with
  | none => .error .missingSource
  | some b =>
    let fs₃ : MacFS := { fs₂ with appDir := some (some b) }
    match dmgTool b with
    | none => .error .toolFailed
    | some c => .ok { fs₃ with dmg := some c }

/-- Where `shutil.make_archive(base_name, 'zip', ...)` creates the archive: a
relative `base_name` (and `ARTIFACT_NAME` is a bare name) is resolved against
the process's current working directory. -/
def makeArchiveZipPath (cwd baseName : String) : String :=
  pathJoin cwd (baseName ++ ".zip")

/-- The `create-dmg` command line assembled in `main()`'s Darwin branch. -/
def dmgCommand (cfg : Config) : String :=
  "create-dmg " ++
  "--volname \"Furious\" " ++
  "--volicon \"Icons/png/rocket-takeoff-window.png\" " ++
  "--window-pos 200 120 " ++
  "--window-size 600 300 " ++
  "--icon-size 100 " ++
  "--icon \"Furious-GUI.app\" 175 120 " ++
  "--hide-extension \"Furious-GUI.app\" " ++
  "--app-drop-link 425 120 " ++
  "\"" ++ pathJoin cfg.rootDir (ARTIFACT_NAME .darwin cfg ++ ".dmg") ++ "\" " ++
  "\"" ++ pathJoin cfg.rootDir "app" ++ "\""

/-- The command-line flags `-d` (`--download`) and `-c` (`--cleanup`). -/
structure Args where
  downloadFlag : Bool
  cleanupFlag : Bool
  deriving DecidableEq, Repr

/-- The observable steps a `main()` run performs, in order. -/
inductive Action where
  | ranCleanup (log : List (String × Bool))
  | attemptedDownload (url filename : String)
  | ranExternal (cmd : String)
  deriving DecidableEq, Repr

/-- How a `main()` run ends: `sys.exit(code)` (or falling off the end of the
script, which exits 0), an uncaught Python exception, or an uncaught
file-system error from the packaging `copytree`/`rmtree`. -/
inductive MainOutcome where
  | exited (code : Int)
  | uncaughtExn (e : PyExn)
  | uncaughtFsError
  deriving DecidableEq, Repr

/-- Everything outside the script that a `main()` run consults: the fetch
environment, which cleanup removals raise, whether `import nuitka` succeeds,
the exit code of a shell command run through `runExternalCommand` (modelled
from the spec: the ProcessRunner executes the given command line through a
shell and reports its exit code), the packaging file systems, and the
disk-image tool. -/
structure Env where
  fetch : FetchEnv
  removeFails : String → Bool
  nuitkaAvailable : Bool
  run : String → Int
  winFS : WinFS
  macFS : MacFS
  dmgTool : Nat → Option Nat

/-- `main()`: `--cleanup` runs the Cleaner and exits 0 before the
`--download` flag is even inspected; `--download` runs `download()` and exits
0/1 by its result; otherwise the build mode checks for nuitka, runs the
platform `NUITKA_BUILD` command (exiting -1 on a non-zero exit code), then
performs the platform packaging — on any platform other than Windows and
Darwin neither packaging branch applies and the script ends, exiting 0. -/
def main (p : Platform) (cfg : Config) (args : Args) (env : Env) :
    MainOutcome × List Action :=
  if args.cleanupFlag then
    (.exited 0, [.ranCleanup (cleanup p cfg env.removeFails)])
  else if args.downloadFlag then
    match download env.fetch with
    | (.error e, att) =>
        (.uncaughtExn e, att.map fun t => .attemptedDownload t.1 t.2)
    | (.ok b, att) =>
        (.exited (if b then 0 else 1),
         att.map fun t => .attemptedDownload t.1 t.2)
  else if env.nuitkaAvailable = false then
    (.uncaughtExn .moduleNotFoundError, [])
  else
    let cmd := NUITKA_BUILD p cfg
    if env.run cmd ≠ 0 then (.exited (-1), [.ranExternal cmd])
    else
      match p with
      | .windows =>
        match packageWindows env.winFS with
        | .error _ => (.uncaughtFsError, [.ranExternal cmd])
        | .ok _ => (.exited 0, [.ranExternal cmd])
      | .darwin =>
        match packageDarwin env.dmgTool env.macFS with
        | .error .missingSource => (.uncaughtFsError, [.ranExternal cmd])
        | .error .toolFailed =>
            (.exited (-1), [.ranExternal cmd, .ranExternal (dmgCommand cfg)])
        | .ok _ =>
            (.exited 0, [.ranExternal cmd, .ranExternal (dmgCommand cfg)])
      | .other => (.exited 0, [.ranExternal cmd])

/-- Appending on the left is cancellative for strings. -/
theorem string_append_left_cancel {s t u : String} (h : s ++ t = s ++ u) :
    t = u := by
  have h' := congrArg String.data h
  rw [String.data_append, String.data_append] at h'
  exact String.ext (List.append_cancel_left h')

/-- Python's `str.__lt__`: lexicographic comparison by code point, used below
only to contrast with the numeric version order. -/
def charListLt : List Char → List Char → Bool
  | [], [] => false
  | [], _ :: _ => true
  | _ :: _, [] => false
  | a :: as, b :: bs =>
    if a.toNat < b.toNat then true
    else if b.toNat < a.toNat then false
    else charListLt as bs

def pyStrLt (s t : String) : Bool := charListLt s.data t.data

/-- C5: on the MacLike (Darwin) branch the artifact name embeds the "10.9"
minimum-OS tag exactly when `PYSIDE6_VERSION` is at or below "6.4.3" and the
"11.0" tag when it is above, where versions are compared numerically per
dot-separated component — in particular "6.4.10" is above "6.4.3" even though
it is below it in lexicographic string order. -/
theorem c5_mac_min_os_tag (cfg : Config) :
    (valueLE (versionToValue cfg.pyside6Version) (versionToValue "6.4.3") = true →
      ARTIFACT_NAME .darwin cfg =
        APPLICATION_NAME ++ "-" ++ cfg.appVersion ++ "-" ++
          "macOS-10.9-" ++ pyLower cfg.platformMachine) ∧
    (valueLE (versionToValue cfg.pyside6Version) (versionToValue "6.4.3") = false →
      ARTIFACT_NAME .darwin cfg =
        APPLICATION_NAME ++ "-" ++ cfg.appVersion ++ "-" ++
          "macOS-11.0-" ++ pyLower cfg.platformMachine) ∧
    valueLE (versionToValue "6.4.10") (versionToValue "6.4.3") = false ∧
    valueLE (versionToValue "6.4.3") (versionToValue "6.4.10") = true ∧
    versionToValue "6.4.10" = [6, 4, 10] ∧
    pyStrLt "6.4.10" "6.4.3" = true := by
  refine ⟨fun h => ?_, fun h => ?_, by decide, by decide, by decide, by decide⟩ <;>
    simp [ARTIFACT_NAME, h]

/-- C5 witness: "6.4.10" is strictly above the "6.4.3" threshold, so the
derived name carries the "11.0" tag. -/
theorem c5_mac_min_os_tag_witness :
    ARTIFACT_NAME .darwin ⟨"0.5.0", "x", "arm64", "6.4.10", "/repo"⟩ =
      APPLICATION_NAME ++ "-" ++ "0.5.0" ++ "-" ++ "macOS-11.0-" ++ pyLower "arm64" :=
  (c5_mac_min_os_tag ⟨"0.5.0", "x", "arm64", "6.4.10", "/repo"⟩).2.1 (by decide)

/-- C6: on the Windows branch, every release string ending in "Server" yields
the same artifact name — the release component is pinned to "10" — while a
non-server release string is embedded literally. -/
theorem c6_windows_server_release_component (v m pv rd r₁ r₂ : String) :
    (pyEndsWith r₁ "Server" = true → pyEndsWith r₂ "Server" = true →
      ARTIFACT_NAME .windows ⟨v, r₁, m, pv, rd⟩ =
        ARTIFACT_NAME .windows ⟨v, r₂, m, pv, rd⟩) ∧
    (pyEndsWith r₁ "Server" = true →
      ARTIFACT_NAME .windows ⟨v, r₁, m, pv, rd⟩ =
        APPLICATION_NAME ++ "-" ++ v ++ "-" ++ "windows10-" ++ pyLower m) ∧
    (pyEndsWith r₁ "Server" = false →
      ARTIFACT_NAME .windows ⟨v, r₁, m, pv, rd⟩ =
        APPLICATION_NAME ++ "-" ++ v ++ "-" ++ "windows" ++ r₁ ++ "-" ++ pyLower m) := by
  refine ⟨fun h₁ h₂ => ?_, fun h₁ => ?_, fun h₁ => ?_⟩
  · simp [ARTIFACT_NAME, h₁, h₂]
  · simp [ARTIFACT_NAME, h₁]
  · simp [ARTIFACT_NAME, h₁]

/-- C6 witness: two different server release strings produce the identical
pinned artifact name. -/
theorem c6_windows_server_release_component_witness :
    ARTIFACT_NAME .windows ⟨"0.5.0", "2016Server", "AMD64", "6.5.0", "/repo"⟩ =
      ARTIFACT_NAME .windows ⟨"0.5.0", "2022Server", "AMD64", "6.5.0", "/repo"⟩ :=
  (c6_windows_server_release_component
      "0.5.0" "AMD64" "6.5.0" "/repo" "2016Server" "2022Server").1
    (by decide) (by decide)

/-- A configuration for a host that is neither Windows nor Darwin. -/
def cfgOther : Config := ⟨"0.5.0", "6.1.0", "x86_64", "6.5.0", "/repo"⟩

/-- An environment in which every external collaborator behaves: requests and
nuitka import fine, every GET yields status 200, every shell command exits 0,
no file-system operation fails, the build outputs exist, and the disk-image
tool succeeds. -/
def envAllOk : Env :=
  { fetch := ⟨true, false, fun _ => .response 200, fun _ => false⟩
    removeFails := fun _ => false
    nuitkaAvailable := true
    run := fun _ => 0
    winFS := ⟨some 0, none, none⟩
    macFS := ⟨some 0, none, none⟩
    dmgTool := fun n => some n }

/-- C1 counterexample: on a platform outside Windows/Darwin the default build
mode does not fail at all — it runs the (empty) `NUITKA_BUILD` command
through the shell, so an external process is invoked, and the run finishes
with exit code 0; no `UnsupportedPlatform` failure exists anywhere in the
program. -/
theorem c1_counterexample :
    main .other cfgOther ⟨false, false⟩ envAllOk =
      (.exited 0, [.ranExternal ""]) ∧
    NUITKA_BUILD .other cfgOther = "" := by
  exact ⟨by decide, rfl⟩

/-- C1 (amended): on every platform family other than Windows and Darwin the
build command and artifact name are empty strings, and whenever nuitka is
importable and the shell reports exit code 0 for the empty command, the
default build mode invokes that one (empty) external command and completes
with exit code 0 instead of failing with `UnsupportedPlatform`. -/
theorem c1_other_platform_runs_empty_command (cfg : Config) (env : Env)
    (h₁ : env.nuitkaAvailable = true) (h₂ : env.run "" = 0) :
    main .other cfg ⟨false, false⟩ env = (.exited 0, [.ranExternal ""]) ∧
    NUITKA_BUILD .other cfg = "" ∧ ARTIFACT_NAME .other cfg = "" := by
  refine ⟨?_, rfl, rfl⟩
  simp [main, h₁, NUITKA_BUILD, h₂]

/-- C1 witness: the amended statement at a concrete non-Windows, non-Darwin
configuration and a concrete well-behaved environment. -/
theorem c1_other_platform_runs_empty_command_witness :
    main .other cfgOther ⟨false, false⟩ envAllOk =
      (.exited 0, [.ranExternal ""]) ∧
    NUITKA_BUILD .other cfgOther = "" ∧ ARTIFACT_NAME .other cfgOther = "" :=
  c1_other_platform_runs_empty_command cfgOther envAllOk rfl rfl

/-- A fetch environment whose GET raises a transport error (the request
fails before any response object exists); everything else behaves. -/
def envTransportFail : FetchEnv :=
  ⟨true, false, fun _ => .transportError, fun _ => false⟩

/-- C2: when `requests.get` raises a transport error, the name `response` in
the `except` handler's log line is unbound, so `downloadXrayAssets` raises
`NameError` instead of catching, logging, and returning `False`. -/
theorem c2_transport_error_escapes_fetch :
    downloadXrayAssets envTransportFail url_geosite filename_geosite =
      .error .nameError ∧
    (download envTransportFail).1 = .error .nameError ∧
    (download envTransportFail).2 = [(url_geosite, filename_geosite)] :=
  ⟨rfl, rfl, rfl⟩

/-- A generic (non-server) Windows configuration. -/
def cfgWin : Config := ⟨"0.5.0", "11", "AMD64", "6.5.0", "/repo"⟩

/-- C3: `shutil.make_archive` is called with the bare `ARTIFACT_NAME` as its
`base_name`, so the zip is created relative to the process's current working
directory — here "/tmp" — which is not the repository root "/repo"; yet the
program's own `cleanup()` removes the zip at the repository root. -/
theorem c3_zip_created_in_cwd_not_at_root :
    (makeArchiveZipPath "/tmp" (ARTIFACT_NAME .windows cfgWin) ==
      pathJoin cfgWin.rootDir (ARTIFACT_NAME .windows cfgWin ++ ".zip")) = false ∧
    (cleanup .windows cfgWin (fun _ => false)).map Prod.fst =
      [pathJoin "/repo" DEPLOY_DIR_NAME,
       pathJoin "/repo" (ARTIFACT_NAME .windows cfgWin ++ ".zip"),
       pathJoin "/repo" (windowsUnzippedDirName cfgWin)] := by
  exact ⟨by decide, by decide⟩

/-- A Windows Server configuration. -/
def cfgServer : Config := ⟨"0.5.0", "2016Server", "AMD64", "6.5.0", "/repo"⟩

/-- C4 counterexample: on a server edition the directory name the Cleaner
removes (built from the literal release string) differs from the renamed
directory name the Packager creates (pinned to "windows10"). -/
theorem c4_counterexample :
    (windowsUnzippedDirName cfgServer == foldernameWindows cfgServer) = false ∧
    pyEndsWith cfgServer.platformRelease "Server" = true ∧
    windowsUnzippedDirName cfgServer = "Furious-0.5.0-windows2016Server" ∧
    foldernameWindows cfgServer = "Furious-0.5.0-windows10" := by
  exact ⟨by decide, by decide, by decide, by decide⟩

/-- C4 (amended): for every non-server Windows configuration the Cleaner's
leftover-directory name equals the Packager's renamed-build directory name,
and for every server-edition configuration the two names differ. -/
theorem c4_cleaner_mirrors_packager_nonserver_only (cfg : Config) :
    (pyEndsWith cfg.platformRelease "Server" = false →
      windowsUnzippedDirName cfg = foldernameWindows cfg) ∧
    (pyEndsWith cfg.platformRelease "Server" = true →
      (windowsUnzippedDirName cfg == foldernameWindows cfg) = false) := by
  constructor
  · intro h
    simp [windowsUnzippedDirName, foldernameWindows, h]
  · intro h
    rw [beq_eq_false_iff_ne]
    intro heq
    rw [windowsUnzippedDirName, foldernameWindows, if_pos h,
      String.append_assoc] at heq
    have h₂ := string_append_left_cancel heq
    have h₃ : ("windows" : String) ++ "10" = "windows10" := rfl
    rw [← h₃] at h₂
    have h₄ := string_append_left_cancel h₂
    rw [h₄] at h
    exact absurd h (by decide)

/-- C4 witness: the amended statement at a non-server and at a server
configuration. -/
theorem c4_cleaner_mirrors_packager_nonserver_only_witness :
    windowsUnzippedDirName cfgWin = foldernameWindows cfgWin ∧
    (windowsUnzippedDirName cfgServer == foldernameWindows cfgServer) = false :=
  ⟨(c4_cleaner_mirrors_packager_nonserver_only cfgWin).1 (by decide),
   (c4_cleaner_mirrors_packager_nonserver_only cfgServer).2 (by decide)⟩

/-- C9: `cleanup()` is total (each removal sits in its own catch-all
`try/except` whose handler only logs, and `logging.raiseExceptions` is off),
and which removals are attempted, and in which order, is independent of which
of them fail: the log under any failure pattern is the all-success log with
each entry's outcome replaced by that removal's own result. -/
theorem c9_cleanup_attempts_all_independently
    (p : Platform) (cfg : Config) (removeFails : String → Bool) :
    cleanup p cfg removeFails =
      (cleanup p cfg (fun _ => false)).map (fun e => (e.1, !removeFails e.1)) := by
  cases p <;> simp [cleanup]

/-- When `requests` imports, the asset directory is creatable, and the GET
yields a response, the fetch returns a boolean: success exactly when the
status is non-4xx/5xx and the file write goes through. -/
theorem downloadXrayAssets_ok_of_response (env : FetchEnv) (url fn : String)
    (h₁ : env.requestsAvailable = true) (h₂ : env.mkdirFails = false)
    (s : Nat) (hs : env.get url = .response s) :
    downloadXrayAssets env url fn =
      .ok (!raiseForStatusFails s && !env.writeFails fn) := by
  simp only [downloadXrayAssets, h₁, h₂, hs, if_false, Bool.false_eq_true]
  cases hr : raiseForStatusFails s <;> cases hw : env.writeFails fn <;>
    simp [hr, hw]

/-- C7: when neither GET raises a transport error, `download()` returns
`true` exactly when both per-task fetches return `true`, and both tasks are
attempted — the second fetch runs even when the first returned `false`,
because the list is built in full before `all` is applied. -/
theorem c7_download_true_iff_both_and_no_short_circuit (env : FetchEnv)
    (h₁ : env.requestsAvailable = true) (h₂ : env.mkdirFails = false)
    (h₃ : ∀ u, env.get u ≠ GetOutcome.transportError) :
    ((download env).1 = .ok true ↔
      downloadXrayAssets env url_geosite filename_geosite = .ok true ∧
      downloadXrayAssets env url_geoip filename_geoip = .ok true) ∧
    (download env).2 =
      [(url_geosite, filename_geosite), (url_geoip, filename_geoip)] := by
  obtain ⟨s₁, hs₁⟩ : ∃ s, env.get url_geosite = .response s := by
    cases h : env.get url_geosite
    · exact absurd h (h₃ _)
    · exact ⟨_, rfl⟩
  obtain ⟨s₂, hs₂⟩ : ∃ s, env.get url_geoip = .response s := by
    cases h : env.get url_geoip
    · exact absurd h (h₃ _)
    · exact ⟨_, rfl⟩
  have e₁ := downloadXrayAssets_ok_of_response env url_geosite filename_geosite
    h₁ h₂ s₁ hs₁
  have e₂ := downloadXrayAssets_ok_of_response env url_geoip filename_geoip
    h₁ h₂ s₂ hs₂
  constructor
  · rw [download, e₁, e₂]
    simp
  · rw [download, e₁, e₂]

/-- A fetch environment where the geosite GET comes back 404 and the geoip
GET comes back 200: the first task fails, the second succeeds. -/
def envFirstFails : FetchEnv :=
  ⟨true, false,
   fun u => .response (if u == url_geosite then 404 else 200),
   fun _ => false⟩

/-- C7 witness: with the first task failing (404) and the second succeeding,
both tasks are still attempted and the overall result is not success. -/
theorem c7_download_true_iff_both_and_no_short_circuit_witness :
    ((download envFirstFails).1 = .ok true ↔
      downloadXrayAssets envFirstFails url_geosite filename_geosite = .ok true ∧
      downloadXrayAssets envFirstFails url_geoip filename_geoip = .ok true) ∧
    (download envFirstFails).2 =
      [(url_geosite, filename_geosite), (url_geoip, filename_geoip)] :=
  c7_download_true_iff_both_and_no_short_circuit envFirstFails rfl rfl
    (fun u => by simp [envFirstFails])

/-- C8: the packaging step can be re-run without an intervening cleanup: a
successful run's resulting state is a fixed point (a second run succeeds and
reproduces the very same state, in particular the same artifact content under
the same artifact name), and on either platform the packaging result depends
only on the raw build output, not on leftover staging directories or a
leftover artifact — each staging location is removed (tolerating absence) and
recreated before use, and the archive/image is overwritten. -/
theorem c8_package_rerun_idempotent :
    (∀ fs fs' : WinFS, packageWindows fs = .ok fs' →
      packageWindows fs' = .ok fs') ∧
    (∀ fs₁ fs₂ : WinFS, fs₁.dist = fs₂.dist →
      packageWindows fs₁ = packageWindows fs₂) ∧
    (∀ (tool : Nat → Option Nat) (fs fs' : MacFS),
      packageDarwin tool fs = .ok fs' → packageDarwin tool fs' = .ok fs') ∧
    (∀ (tool : Nat → Option Nat) (fs₁ fs₂ : MacFS), fs₁.bundle = fs₂.bundle →
      packageDarwin tool fs₁ = packageDarwin tool fs₂) := by
  refine ⟨fun fs fs' h => ?_, fun fs₁ fs₂ h => ?_,
    fun tool fs fs' h => ?_, fun tool fs₁ fs₂ h => ?_⟩
  · cases hd : fs.dist <;> simp [packageWindows, hd] at h
    rw [← h]
    simp [packageWindows]
  · cases fs₁ with
    | mk d₁ f₁ z₁ =>
      cases fs₂ with
      | mk d₂ f₂ z₂ =>
        simp only at h
        subst h
        cases d₁ <;> simp [packageWindows]
  · cases hb : fs.bundle <;> simp [packageDarwin, hb] at h
    cases ht : tool _ <;> rw [ht] at h
    · simp at h
    · simp at h
      rw [← h]
      simp [packageDarwin, ht]
  · cases fs₁ with
    | mk b₁ a₁ d₁ =>
      cases fs₂ with
      | mk b₂ a₂ d₂ =>
        simp only at h
        subst h
        cases b₁ <;> simp [packageDarwin]

/-- C8 witness: a concrete Windows state with a stale renamed directory and a
stale zip, and a concrete Darwin state, each packaged twice with the second
run reproducing the first run's result. -/
theorem c8_package_rerun_idempotent_witness :
    packageWindows ⟨some 7, some 3, some 5⟩ = .ok ⟨some 7, some 7, some 7⟩ ∧
    packageWindows ⟨some 7, some 7, some 7⟩ = .ok ⟨some 7, some 7, some 7⟩ ∧
    packageDarwin (fun n => some (n + 1)) ⟨some 4, none, none⟩ =
      .ok ⟨some 4, some (some 4), some 5⟩ ∧
    packageDarwin (fun n => some (n + 1)) ⟨some 4, some (some 4), some 5⟩ =
      .ok ⟨some 4, some (some 4), some 5⟩ :=
  ⟨rfl, c8_package_rerun_idempotent.1 ⟨some 7, some 3, some 5⟩
      ⟨some 7, some 7, some 7⟩ rfl,
   rfl, c8_package_rerun_idempotent.2.2.1 (fun n => some (n + 1))
      ⟨some 4, none, none⟩ ⟨some 4, some (some 4), some 5⟩ rfl⟩

/-- C10: with the cleanup flag set, `main` runs only the Cleaner and exits 0,
whatever the download flag says: the download is never attempted. -/
theorem c10_cleanup_takes_precedence_over_download
    (p : Platform) (cfg : Config) (env : Env) (dl : Bool) :
    main p cfg ⟨dl, true⟩ env =
      (.exited 0, [.ranCleanup (cleanup p cfg env.removeFails)]) := by
  simp [main]

end Deploy
